import Mathlib

/-!
Verification of the proofport-ai enclave components against their
natural-language specification.

The development shallowly embeds the two Python sources:

  * `src/aws/enclave-server.py` — the vsock server running inside the
    Nitro enclave: request dispatch (`dispatch`, `handle_health`,
    `handle_prove`, `handle_attestation`, `handle_connection`), the proof
    pipeline (`get_circuit_paths`, `write_prover_toml`/`inputsToml`,
    `generate_proof`) and the NSM attestation client
    (`get_nsm_attestation`, the `struct.pack("QIIQII", ...)` layout).
  * `src/aws/vsock-bridge.py` — the TCP-to-vsock byte relay (`bridge`).

Effects of the Python code (filesystem checks, subprocess invocations,
the ioctl device call, socket reads) are embedded as explicit
environment records (`PipelineEnv`, `NsmEnv`, `BridgeEnv`) supplying the
outcome of every external interaction, and as an explicit event trace
(`Event`) recording writes, copies, tool invocations and the
creation/removal of the temporary workspace directory.  Python values
appearing in requests/responses are modelled by a JSON value type;
Python truthiness, `dict.get`, f-string rendering, `bytes.hex`,
`base64.b64encode`, `bytes.fromhex` and `str.lstrip` are modelled
explicitly below, following CPython's documented behaviour.
-/

/-- JSON values, as produced by `json.loads` (integers only: the circuits
protocol carries only strings, lists and objects). -/
inductive Json where
  | null
  | bool (b : Bool)
  | num (n : Int)
  | str (s : String)
  | arr (elems : List Json)
  | obj (fields : List (String × Json))

/-- Association-list lookup used to model `dict.__getitem__`/`dict.get`
(JSON objects decoded by Python have unique keys, so first-match lookup
agrees with dict lookup). -/
def lookupField : List (String × Json) → String → Option Json
  | [], _ => none
  | (k, v) :: rest, key => if k = key then some v else lookupField rest key

/-- `request.get(key)` — `none` for a missing key. -/
def jget (j : Json) (key : String) : Option Json :=
  match j with
  | Json.obj fields => lookupField fields key
  | _ => none

/-- `request.get(key, default)`. -/
def jgetD (j : Json) (key : String) (dflt : Json) : Json :=
  (jget j key).getD dflt

/-- Python truthiness of a decoded JSON value. -/
def pyTruthy : Json → Bool
  | Json.null => false
  | Json.bool b => b
  | Json.num n => n != 0
  | Json.str s => s ≠ ""
  | Json.arr l => !l.isEmpty
  | Json.obj f => !f.isEmpty

/-- Truthiness of `dict.get`'s result (`None` for a missing key is falsy). -/
def pyTruthyOpt : Option Json → Bool
  | none => false
  | some j => pyTruthy j

def isArr : Option Json → Bool
  | some (Json.arr _) => true
  | _ => false

def isObj : Json → Bool
  | Json.obj _ => true
  | _ => false

/-- Python type name of a decoded JSON value (`type(x).__name__`). -/
def pyTypeName : Json → String
  | Json.null => "NoneType"
  | Json.bool _ => "bool"
  | Json.num _ => "int"
  | Json.str _ => "str"
  | Json.arr _ => "list"
  | Json.obj _ => "dict"

mutual

/-- Python `str()` of a decoded JSON value, as used by f-string
interpolation (`f"...{x}..."`). -/
def pyStrJson : Json → String
  | Json.null => "None"
  | Json.bool true => "True"
  | Json.bool false => "False"
  | Json.num n => toString n
  | Json.str s => s
  | Json.arr l => "[" ++ pyReprList l ++ "]"
  | Json.obj fs => "\x7b" ++ pyReprFields fs ++ "\x7d"

/-- Python `repr()` of a decoded JSON value (strings are quoted). -/
def pyReprJson : Json → String
  | Json.null => "None"
  | Json.bool true => "True"
  | Json.bool false => "False"
  | Json.num n => toString n
  | Json.str s => "'" ++ s ++ "'"
  | Json.arr l => "[" ++ pyReprList l ++ "]"
  | Json.obj fs => "\x7b" ++ pyReprFields fs ++ "\x7d"

def pyReprList : List Json → String
  | [] => ""
  | [j] => pyReprJson j
  | j :: j2 :: rest => pyReprJson j ++ ", " ++ pyReprList (j2 :: rest)

def pyReprFields : List (String × Json) → String
  | [] => ""
  | [(k, v)] => "'" ++ k ++ "': " ++ pyReprJson v
  | (k, v) :: p :: rest => "'" ++ k ++ "': " ++ pyReprJson v ++ ", " ++ pyReprFields (p :: rest)

end

/-- `str()` of `request.get(...)`'s result (`None` renders as "None"). -/
def pyStrOpt : Option Json → String
  | none => "None"
  | some j => pyStrJson j

/-- `sep.join(parts)`. -/
def joinSep (sep : String) : List String → String
  | [] => ""
  | [x] => x
  | x :: y :: rest => x ++ sep ++ joinSep sep (y :: rest)

/-- Lowercase hex of one byte, as produced by `bytes.hex()`. -/
def byteHex (n : Nat) : String :=
  String.mk [Nat.digitChar (n / 16 % 16), Nat.digitChar (n % 16)]

/-- `bytes.hex()`: lowercase, two digits per byte, no separator. -/
def bytesHex (bs : List Nat) : String :=
  String.join (bs.map byteHex)

/-- The base64 alphabet (RFC 4648, as used by `base64.b64encode`). -/
def b64c (n : Nat) : Char :=
  "ABCDEFGHIJKLMNOPQRSTUVWXYZabcdefghijklmnopqrstuvwxyz0123456789+/".toList.getD n 'A'

/-- `base64.b64encode(bs).decode("ascii")`. -/
def b64encode : List Nat → String
  | [] => ""
  | [a] => String.mk [b64c (a / 4 % 64), b64c (a % 4 * 16)] ++ "=="
  | [a, b] =>
      String.mk [b64c (a / 4 % 64), b64c (a % 4 * 16 + b / 16 % 16), b64c (b % 16 * 4)] ++ "="
  | a :: b :: c :: rest =>
      String.mk [b64c (a / 4 % 64), b64c (a % 4 * 16 + b / 16 % 16),
                 b64c (b % 16 * 4 + c / 64 % 4), b64c (c % 64)]
      ++ b64encode rest

/-- Value of one hex digit, `none` for a non-digit. -/
def hexVal : Char → Option Nat :=
  fun c =>
    if '0' ≤ c ∧ c ≤ '9' then some (c.toNat - '0'.toNat)
    else if 'a' ≤ c ∧ c ≤ 'f' then some (c.toNat - 'a'.toNat + 10)
    else if 'A' ≤ c ∧ c ≤ 'F' then some (c.toNat - 'A'.toNat + 10)
    else none

/-- CPython's `ValueError` message for a bad `bytes.fromhex` argument. -/
def fromhexErr (pos : Nat) : String :=
  "non-hexadecimal number found in fromhex() arg at position " ++ toString pos

/-- The ASCII whitespace characters (CPython `Py_ISSPACE`) that
`bytes.fromhex` skips between digit pairs (all of them since
CPython 3.7, not just the space character). -/
def isPySpace (c : Char) : Bool :=
  c = ' ' ∨ c = '\t' ∨ c = '\n' ∨ c = '\x0b' ∨ c = '\x0c' ∨ c = '\r'

/-- Worker for `bytes.fromhex`: consumes hex-digit pairs, skipping ASCII
whitespace between pairs, tracking the character position for the error
message. -/
def fromhexAux : List Char → Nat → Except String (List Nat)
  | [], _ => Except.ok []
  | c :: rest, pos =>
    if isPySpace c then fromhexAux rest (pos + 1)
    else
      match hexVal c with
      | none => Except.error (fromhexErr pos)
      | some hi =>
        match rest with
        | [] => Except.error (fromhexErr (pos + 1))
        | d :: rest2 =>
          match hexVal d with
          | none => Except.error (fromhexErr (pos + 1))
          | some lo =>
            match fromhexAux rest2 (pos + 2) with
            | Except.ok bs => Except.ok ((hi * 16 + lo) :: bs)
            | Except.error e => Except.error e

/-- `bytes.fromhex(s)`: two hex digits per byte, ASCII whitespace allowed
between pairs; an odd count of digits or a non-hex character raises
`ValueError` (modelled as `Except.error`). -/
def fromhex (s : String) : Except String (List Nat) :=
  fromhexAux s.toList 0

/-- `s.lstrip("0x")`: removes every LEADING character belonging to the
character SET -- zero and lowercase x -- not the two-character prefix. -/
def lstrip0x (s : String) : String :=
  String.mk (s.toList.dropWhile (fun c => c = '0' ∨ c = 'x'))

-- Little-endian packing, as `struct.pack` does on x86_64 (the enclave's
-- documented target architecture).

/-- The 4 little-endian bytes of a 32-bit field (`struct.pack("I", n)`). -/
def le32 (n : Nat) : List Nat :=
  [n % 256, n / 256 % 256, n / 65536 % 256, n / 16777216 % 256]

/-- The 8 little-endian bytes of a 64-bit field (`struct.pack("Q", n)`). -/
def le64 (n : Nat) : List Nat :=
  le32 (n % 4294967296) ++ le32 (n / 4294967296)

/-- `struct.pack("QIIQII", reqAddr, reqLen, 0, respAddr, respLen, 0)`:
the `nsm_raw` control structure handed to the NSM ioctl. -/
def pack_QIIQII (reqAddr reqLen respAddr respLen : Nat) : List Nat :=
  le64 reqAddr ++ le32 reqLen ++ le32 0 ++ le64 respAddr ++ le32 respLen ++ le32 0

/-- Little-endian decoding of the first four bytes of a list. -/
def le_u32 : List Nat → Nat
  | b0 :: b1 :: b2 :: b3 :: _ => b0 + 256 * b1 + 65536 * b2 + 16777216 * b3
  | _ => 0

/-- `struct.unpack_from("I", msg, off)[0]`. -/
def unpack_from_I (msg : List Nat) (off : Nat) : Nat :=
  le_u32 (msg.drop off)

-- ─────────────────────────────────────────────────────────────
-- NSM attestation client (get_nsm_attestation)
-- ─────────────────────────────────────────────────────────────

def NSM_IOCTL_CMD : Nat := 0xC0200A00

def NSM_RESPONSE_BUF_SIZE : Nat := 16384

/-- Decoded CBOR response from the device, as inspected by the code:
presence of an "Attestation" entry (and, inside it, of a "document"
entry) and presence of an "Error" entry. -/
structure CborResp where
  attestationEntry : Option (Option (List Nat))
  errorEntry : Bool

/-- Outcome of every external interaction performed by
`get_nsm_attestation`: device-file presence, availability of the `cbor2`
module, CBOR serialization of the request payload, the buffer addresses
chosen by `ctypes`, the ioctl call (`none` models a raised exception;
otherwise the updated 32-byte control structure and the raw response
buffer), and CBOR decoding of the response (`none` models a raised
exception). -/
structure NsmEnv where
  deviceAvailable : Bool
  cbor2Available : Bool
  cborDumps : Option (List Nat) → Option (List Nat) → List Nat
  reqBufAddr : Nat
  respBufAddr : Nat
  ioctl : List Nat → Option (List Nat × List Nat)
  decodeCbor : List Nat → Option CborResp

/-- `user_data if user_data else None` — empty bytes become `None`. -/
def bytesOrNone (b : List Nat) : Option (List Nat) :=
  if b.isEmpty then none else some b

/-- `get_nsm_attestation(user_data, nonce)`: returns the raw attestation
document bytes, or `none` when the device is absent, `cbor2` is missing,
the ioctl raises, the device reports a zero response length, the
response fails to decode, or the decoded response carries no
"Attestation"/"document" entry (the "Error" envelope and any unexpected
shape are both logged and collapsed to `None` by the code). -/
def get_nsm_attestation (env : NsmEnv) (user_data nonce : List Nat) : Option (List Nat) :=
  if env.deviceAvailable = false then none
  else if env.cbor2Available = false then none
  else
    let cbor_request := env.cborDumps (bytesOrNone user_data) (bytesOrNone nonce)
    let msg := pack_QIIQII env.reqBufAddr cbor_request.length env.respBufAddr NSM_RESPONSE_BUF_SIZE
    match env.ioctl msg with
    | none => none
    | some (msgAfter, respRaw) =>
      let actual_len := unpack_from_I msgAfter 24
      if actual_len = 0 then none
      else
        match env.decodeCbor (respRaw.take actual_len) with
        | none => none
        | some resp =>
          match resp.attestationEntry with
          | some (some doc) => some doc
          | _ => none

-- ─────────────────────────────────────────────────────────────
-- Circuit registry and proof pipeline
-- ─────────────────────────────────────────────────────────────

def CIRCUIT_BASE_DIR : String := "/app/circuits"

structure CircuitMeta where
  dirName : String
  bytecodeName : String
  vkName : String

/-- The CIRCUITS registry, in source (insertion) order. -/
def CIRCUITS : List (String × CircuitMeta) :=
  [("coinbase_attestation",
    { dirName := "coinbase-attestation",
      bytecodeName := "coinbase_attestation.json", vkName := "vk/vk" }),
   ("coinbase_country_attestation",
    { dirName := "coinbase-country-attestation",
      bytecodeName := "coinbase_country_attestation.json", vkName := "vk/vk" })]

def lookupCircuit : String → List (String × CircuitMeta) → Option CircuitMeta
  | _, [] => none
  | s, (k, m) :: rest => if k = s then some m else lookupCircuit s rest

def PROVE_TIMEOUT_SECONDS : Nat := 120

/-- Python exceptions raised inside `generate_proof` and caught by
`handle_prove`'s except-chain. -/
inductive PyErr where
  | valueError (msg : String)
  | timeoutExpired
  | runtimeError (msg : String)
  | other (msg : String)

structure CircuitPaths where
  dir : String
  bytecode : String
  vk : String

def unknownCircuitMsg (cid : String) : String :=
  "Unknown circuitId '" ++ cid ++ "'. Supported: " ++ joinSep ", " (CIRCUITS.map Prod.fst)

/-- `get_circuit_paths(circuit_id)`: registry lookup, raising `ValueError`
for an unknown identifier.  A non-string identifier is never in the
registry, so it always takes the `ValueError` path (rendered by `str`). -/
def get_circuit_paths (circuit_id : Json) : Except PyErr CircuitPaths :=
  match circuit_id with
  | Json.str s =>
    match lookupCircuit s CIRCUITS with
    | some meta =>
      Except.ok
        { dir := CIRCUIT_BASE_DIR ++ "/" ++ meta.dirName,
          bytecode := CIRCUIT_BASE_DIR ++ "/" ++ meta.dirName ++ "/target/" ++ meta.bytecodeName,
          vk := CIRCUIT_BASE_DIR ++ "/" ++ meta.dirName ++ "/target/" ++ meta.vkName }
    | none => Except.error (PyErr.valueError (unknownCircuitMsg s))
  | j => Except.error (PyErr.valueError (unknownCircuitMsg (pyStrJson j)))

/-- Contents written by `write_prover_toml(inputs, workdir)`:
one `input_N = "value"` line per input, newline-joined, plus a final
newline. -/
def inputsToml (inputs : List Json) : String :=
  joinSep "\n"
    (inputs.enum.map (fun p => "input_" ++ toString p.1 ++ " = \"" ++ pyStrJson p.2 ++ "\""))
  ++ "\n"

/-- Externally observable filesystem/process actions of the pipeline. -/
inductive Event where
  | mkdtemp (dir : String)
  | writeFile (path : String) (content : String)
  | copyFile (src dst : String)
  | copyTree (src dst : String)
  | runNargo (programDir : String)
  | runBB (bytecode witness output vk : String)
  | rmtree (dir : String)
deriving DecidableEq, Repr

/-- Outcome of a `subprocess.run(..., timeout=PROVE_TIMEOUT_SECONDS)`
call: `TimeoutExpired`, or completion with a return code and captured
output. -/
inductive Run where
  | timedOut
  | done (returncode : Int) (stdout stderr : String)
deriving DecidableEq, Repr

/-- Outcome of every external interaction performed by `generate_proof`:
the filesystem as seen before the tools run (`exists0`), the name chosen
by `tempfile.TemporaryDirectory`, the two tool invocations, the
filesystem after each tool, file contents, the SHA-256 function, and the
attestation environment. -/
structure PipelineEnv where
  exists0 : String → Bool
  workdir : String
  nargo : Run
  existsAfterNargo : String → Bool
  bb : Run
  existsAfterBB : String → Bool
  isDirAfterBB : String → Bool
  readFile : String → List Nat
  sha256 : List Nat → List Nat
  nsmEnv : NsmEnv

structure ProveResult where
  proof : String
  publicInputs : List String
  attestationDocument : Option String

/-- The `shutil.copy2`/`copytree` staging of the workspace (step 2),
each copy conditional on source existence. -/
def copyEvents (env : PipelineEnv) (paths : CircuitPaths) (workdir : String) : List Event :=
  (if env.exists0 (paths.dir ++ "/Nargo.toml") then
    [Event.copyFile (paths.dir ++ "/Nargo.toml") (workdir ++ "/Nargo.toml")] else [])
  ++ (if env.exists0 (paths.dir ++ "/src") then
    [Event.copyTree (paths.dir ++ "/src") (workdir ++ "/src")] else [])
  ++ (if env.exists0 (paths.dir ++ "/target") then
    [Event.copyTree (paths.dir ++ "/target") (workdir ++ "/target")] else [])

/-- Body of `generate_proof` inside the `tempfile.TemporaryDirectory`
context manager (steps 1-7): Prover.toml population, workspace staging,
`nargo execute`, witness location, `bb prove`, proof/public-input
reading, and the non-fatal attestation step.  Returns the result (or the
raised exception) together with the trace of effects performed inside
the workspace. -/
def proveInWorkdir (env : PipelineEnv) (paths : CircuitPaths) (circuit_id : Json)
    (inputs : List Json) (prover_toml : Option Json) :
    Except PyErr ProveResult × List Event :=
  let workdir := env.workdir
  let tomlPath := workdir ++ "/Prover.toml"
  -- Step 1: Prover.toml — verbatim payload if `prover_toml` is truthy,
  -- otherwise the generic input_N synthesis (write_prover_toml).
  let step1 : Except PyErr (List Event) :=
    if pyTruthyOpt prover_toml then
      match prover_toml with
      | some (Json.str s) => Except.ok [Event.writeFile tomlPath s]
      | some j => Except.error (PyErr.other ("write() argument must be str, not " ++ pyTypeName j))
      | none => Except.error (PyErr.other "write() argument must be str, not NoneType")
    else Except.ok [Event.writeFile tomlPath (inputsToml inputs)]
  match step1 with
  | Except.error e => (Except.error e, [])
  | Except.ok evs1 =>
    -- Step 2: stage the workspace; Step 3: nargo execute.
    let evsPre := evs1 ++ copyEvents env paths workdir ++ [Event.runNargo workdir]
    match env.nargo with
    | Run.timedOut => (Except.error PyErr.timeoutExpired, evsPre)
    | Run.done rc _ rerr =>
      if rc ≠ 0 then
        (Except.error (PyErr.runtimeError
          ("nargo execute failed (exit " ++ toString rc ++ "): " ++ rerr)), evsPre)
      else
        -- Locate the witness: target/<circuit_name>.gz, else target/witness.gz.
        let witness_expected := workdir ++ "/target/" ++ pyStrJson circuit_id ++ ".gz"
        let witness_choice : Except PyErr String :=
          if env.existsAfterNargo witness_expected then Except.ok witness_expected
          else if env.existsAfterNargo (workdir ++ "/target/witness.gz") then
            Except.ok (workdir ++ "/target/witness.gz")
          else
            Except.error (PyErr.runtimeError
              ("Witness file not found after nargo execute. Expected: " ++ witness_expected))
        match witness_choice with
        | Except.error e => (Except.error e, evsPre)
        | Except.ok witness_path =>
          -- Step 4: bb prove.
          let proof_output := workdir ++ "/proof"
          let evsBB := evsPre ++ [Event.runBB paths.bytecode witness_path proof_output paths.vk]
          match env.bb with
          | Run.timedOut => (Except.error PyErr.timeoutExpired, evsBB)
          | Run.done brc _ berr =>
            if brc ≠ 0 then
              (Except.error (PyErr.runtimeError
                ("bb prove failed (exit " ++ toString brc ++ "): " ++ berr)), evsBB)
            else
              -- Step 5: read the proof bytes.
              let proof_file :=
                if env.isDirAfterBB proof_output then proof_output ++ "/proof" else proof_output
              if env.existsAfterBB proof_file = false then
                (Except.error (PyErr.runtimeError
                  ("bb prove did not produce output at " ++ proof_file)), evsBB)
              else
                let proof_bytes := env.readFile proof_file
                let proof_hex := "0x" ++ bytesHex proof_bytes
                -- Step 6: optional public-inputs file.
                let public_inputs_path := proof_output ++ "/public_inputs"
                let public_inputs :=
                  if env.existsAfterBB public_inputs_path then
                    ["0x" ++ bytesHex (env.readFile public_inputs_path)]
                  else []
                -- Step 7: non-fatal NSM attestation bound to sha256(proof).
                -- `if nsm_doc:` — bytes truthiness: an empty document is
                -- falsy and leaves attestation_b64 = None.
                let attestation_b64 : Option String :=
                  match get_nsm_attestation env.nsmEnv (env.sha256 proof_bytes) [] with
                  | some doc => if doc.isEmpty then none else some (b64encode doc)
                  | none => none
                -- `if attestation_b64:` — string truthiness: the result dict
                -- gets the attestationDocument key only for a truthy
                -- (non-empty) string.
                (Except.ok
                  { proof := proof_hex, publicInputs := public_inputs,
                    attestationDocument :=
                      match attestation_b64 with
                      | some ab => if ab = "" then none else some ab
                      | none => none }, evsBB)

/-- `generate_proof(circuit_id, inputs, request_id, prover_toml)`:
registry resolution and artifact checks happen before the workspace is
created; the `with tempfile.TemporaryDirectory(...)` wrapper creates the
workspace and removes it on every exit (normal return or exception). -/
def generate_proof (env : PipelineEnv) (circuit_id : Json) (inputs : List Json)
    (prover_toml : Option Json) : Except PyErr ProveResult × List Event :=
  match get_circuit_paths circuit_id with
  | Except.error e => (Except.error e, [])
  | Except.ok paths =>
    if env.exists0 paths.bytecode = false then
      (Except.error (PyErr.runtimeError
        ("Circuit artifact missing: bytecode at " ++ paths.bytecode)), [])
    else if env.exists0 paths.vk = false then
      (Except.error (PyErr.runtimeError
        ("Circuit artifact missing: vk at " ++ paths.vk)), [])
    else
      ((proveInWorkdir env paths circuit_id inputs prover_toml).1,
       Event.mkdtemp env.workdir
         :: (proveInWorkdir env paths circuit_id inputs prover_toml).2
         ++ [Event.rmtree env.workdir])

-- ─────────────────────────────────────────────────────────────
-- Request handlers and dispatch
-- ─────────────────────────────────────────────────────────────

/-- The error response dictionary, field order as in the source. -/
def errorResp (request_id : Json) (msg : String) : Json :=
  Json.obj [("type", Json.str "error"), ("requestId", request_id), ("error", Json.str msg)]

def timeoutMsg : String :=
  "Proof generation timed out after " ++ toString PROVE_TIMEOUT_SECONDS ++ "s"

/-- `handle_prove`'s except-chain mapping a raised exception to an error
response. -/
def errorRespFor (request_id : Json) : PyErr → Json
  | PyErr.valueError m => errorResp request_id m
  | PyErr.timeoutExpired => errorResp request_id timeoutMsg
  | PyErr.runtimeError m => errorResp request_id m
  | PyErr.other m => errorResp request_id ("Internal error: " ++ m)

/-- The proof response, with `attestationDocument` appended only when
present in the pipeline result. -/
def proofResp (request_id : Json) (r : ProveResult) : Json :=
  let base := [("type", Json.str "proof"), ("requestId", request_id),
               ("proof", Json.str r.proof),
               ("publicInputs", Json.arr (r.publicInputs.map Json.str))]
  match r.attestationDocument with
  | some d => Json.obj (base ++ [("attestationDocument", Json.str d)])
  | none => Json.obj base

def handle_health (request : Json) : Json :=
  Json.obj [("type", Json.str "health"),
            ("requestId", jgetD request "requestId" (Json.str "")),
            ("status", Json.str "ok")]

/-- `inputs or []` followed by iteration as a list.  `handle_prove`'s
guard ensures this value is only consumed (by `write_prover_toml`) when
`inputs` is a truthy list, so the fallback branches are unreachable
there. -/
def asInputList : Option Json → List Json
  | some (Json.arr l) => if l.isEmpty then [] else l
  | _ => []

/-- `handle_prove(request)`: field extraction, the two guard checks, the
pipeline call, and the except-chain.  Also returns the pipeline's effect
trace (empty when the pipeline is never entered). -/
def handle_prove (env : PipelineEnv) (request : Json) : Json × List Event :=
  let circuit_id := jget request "circuitId"
  let inputs := jget request "inputs"
  let prover_toml := jget request "proverToml"
  let request_id := jgetD request "requestId" (Json.str "")
  if pyTruthyOpt circuit_id = false then
    (errorResp request_id "Missing circuitId", [])
  else if pyTruthyOpt prover_toml = false ∧
      (pyTruthyOpt inputs = false ∨ isArr inputs = false) then
    (errorResp request_id "Missing proverToml or inputs", [])
  else
    match generate_proof env (circuit_id.getD Json.null) (asInputList inputs) prover_toml with
    | (Except.ok result, evs) => (proofResp request_id result, evs)
    | (Except.error e, evs) => (errorRespFor request_id e, evs)

/-- `handle_attestation(request)`: decodes the optional `proofHash` into
the user data (`bytes.fromhex(proof_hash_hex.lstrip("0x"))` when truthy,
empty bytes otherwise; a decoding failure is caught and reported), then
requests the document; an absent (or empty, hence falsy) document is a
reported error here. -/
def handle_attestation (env : NsmEnv) (request : Json) : Json :=
  let request_id := jgetD request "requestId" (Json.str "")
  let proof_hash_hex := jgetD request "proofHash" (Json.str "")
  let user_data : Except String (List Nat) :=
    if pyTruthy proof_hash_hex then
      match proof_hash_hex with
      | Json.str s => fromhex (lstrip0x s)
      | j => Except.error ("'" ++ pyTypeName j ++ "' object has no attribute 'lstrip'")
    else Except.ok []
  match user_data with
  | Except.error e => errorResp request_id e
  | Except.ok ud =>
    -- `if nsm_doc:` — Python bytes truthiness: `None` AND the empty byte
    -- string both take the error branch.
    match get_nsm_attestation env ud [] with
    | some doc =>
      if doc.isEmpty then errorResp request_id "NSM device not available"
      else
        Json.obj [("type", Json.str "attestation"),
                  ("requestId", request_id),
                  ("attestationDocument", Json.str (b64encode doc))]
    | none => errorResp request_id "NSM device not available"

/-- `dispatch(request)`: tag comparison in source order; any tag failing
all three `==` comparisons against the literal strings (including a
missing or non-string one) yields the unknown-type error. -/
def dispatch (env : PipelineEnv) (request : Json) : Json × List Event :=
  let req_type := jget request "type"
  let unknown : Json × List Event :=
    (errorResp (jgetD request "requestId" (Json.str ""))
      ("Unknown request type: '" ++ pyStrOpt req_type ++ "'"), [])
  match req_type with
  | some (Json.str s) =>
    if s = "health" then (handle_health request, [])
    else if s = "prove" then handle_prove env request
    else if s = "attestation" then (handle_attestation env.nsmEnv request, [])
    else unknown
  | _ => unknown

-- ─────────────────────────────────────────────────────────────
-- Connection handling (handle_connection) and the vsock bridge
-- ─────────────────────────────────────────────────────────────

/-- The socket read loop shared by `handle_connection` and `bridge`:
chunks are accumulated until an empty read (peer half-close) or until
the idle timeout ends the sequence (modelled by the list running out). -/
def recvLoop : List (List Nat) → List Nat
  | [] => []
  | c :: rest => if c.isEmpty then [] else c ++ recvLoop rest

/-- Outcome of `raw.decode("utf-8")` + `json.loads`: a decoded value, a
`json.JSONDecodeError` (caught by the dedicated handler), or a
`UnicodeDecodeError` (caught only by the outer catch-all). -/
inductive ParseOutcome where
  | ok (j : Json)
  | jsonError (e : String)
  | decodeError (e : String)

/-- What the connection handler did: sent a response, or closed the
connection without sending anything. -/
inductive ConnResult where
  | noResponse
  | sent (response : Json)

/-- `handle_connection`: reads chunks until EOF/timeout; an EMPTY
accumulated body is logged and the handler returns without writing
anything; a body that fails JSON decoding gets an error response with
requestId ""; a non-dict decoded value makes `request.get` raise, which
the outer handler catches and reports with requestId "". -/
def handle_connection (env : PipelineEnv) (parse : List Nat → ParseOutcome)
    (chunks : List (List Nat)) : ConnResult :=
  let raw := recvLoop chunks
  if raw.isEmpty then ConnResult.noResponse
  else
    match parse raw with
    | ParseOutcome.jsonError e =>
      ConnResult.sent (errorResp (Json.str "") ("Invalid JSON: " ++ e))
    | ParseOutcome.decodeError e =>
      ConnResult.sent (errorResp (Json.str "") ("Server error: " ++ e))
    | ParseOutcome.ok request =>
      if isObj request then ConnResult.sent (dispatch env request).1
      else
        ConnResult.sent (errorResp (Json.str "")
          ("Server error: '" ++ pyTypeName request ++ "' object has no attribute 'get'"))

/-- Outcome of every external interaction performed by `bridge`: whether
the outbound vsock connect succeeds, and the chunk sequences delivered
by the two sockets' `recv` loops. -/
structure BridgeEnv where
  connectOk : Bool
  inChunks : List (List Nat)
  outChunks : List (List Nat)

/-- `bridge(tcp_conn, addr)` from vsock-bridge.py: accumulate the TCP
request until half-close/timeout, forward it to the vsock socket,
accumulate the vsock response, forward it back.  Returns the pair
(bytes sent to vsock, bytes sent back to TCP), or `none` when the
outbound connect fails (the error is logged and both ends closed). -/
def bridge (env : BridgeEnv) : Option (List Nat × List Nat) :=
  if env.connectOk = false then none
  else
    let data := recvLoop env.inChunks
    let resp := recvLoop env.outChunks
    some (data, resp)

-- ─────────────────────────────────────────────────────────────
-- Concrete sample environments (used to instantiate the theorems)
-- ─────────────────────────────────────────────────────────────

/-- An attestation environment with no NSM device (the ordinary
non-enclave situation). -/
def nsmAbsent : NsmEnv :=
  { deviceAvailable := false, cbor2Available := true,
    cborDumps := fun _ _ => [], reqBufAddr := 0, respBufAddr := 0,
    ioctl := fun _ => none, decodeCbor := fun _ => none }

/-- An attestation environment whose device answers every request with a
fixed document of bytes `[7, 8]`. -/
def nsmGiving : NsmEnv :=
  { deviceAvailable := true, cbor2Available := true,
    cborDumps := fun _ _ => [1], reqBufAddr := 64, respBufAddr := 128,
    ioctl := fun _ => some (List.replicate 24 0 ++ [2, 0, 0, 0, 0, 0, 0, 0], [5, 6]),
    decodeCbor := fun _ => some { attestationEntry := some (some [7, 8]), errorEntry := false } }

/-- An attestation environment whose device writes back a zero response
length. -/
def nsmZeroLen : NsmEnv :=
  { deviceAvailable := true, cbor2Available := true,
    cborDumps := fun _ _ => [1], reqBufAddr := 64, respBufAddr := 128,
    ioctl := fun _ => some (List.replicate 32 0, [5, 6]),
    decodeCbor := fun _ => some { attestationEntry := some (some [7, 8]), errorEntry := false } }

/-- A pipeline environment in which every artifact exists and both tools
succeed; the NSM device is absent. -/
def envOk : PipelineEnv :=
  { exists0 := fun _ => true,
    workdir := "/app/circuits/proof-r1-w",
    nargo := Run.done 0 "" "",
    existsAfterNargo := fun _ => true,
    bb := Run.done 0 "" "",
    existsAfterBB := fun _ => true,
    isDirAfterBB := fun _ => true,
    readFile := fun _ => [1, 2],
    sha256 := fun _ => [9],
    nsmEnv := nsmAbsent }

/-- `envOk` with a responsive NSM device. -/
def envOkNsm : PipelineEnv := { envOk with nsmEnv := nsmGiving }

/-- `envOk` with `nargo execute` exceeding its timeout. -/
def envNargoTimeout : PipelineEnv := { envOk with nargo := Run.timedOut }

/-- `envOk` with `bb prove` exceeding its timeout. -/
def envBBTimeout : PipelineEnv := { envOk with bb := Run.timedOut }

/-- A parse function reporting a JSON decoding failure on any input. -/
def parseFail : List Nat → ParseOutcome := fun _ => ParseOutcome.jsonError "x"

/-- Request constructors used in the statements below. -/
def proveReqPT (cid : Json) (pt : String) (rid : Json) : Json :=
  Json.obj [("type", Json.str "prove"), ("circuitId", cid),
            ("proverToml", Json.str pt), ("requestId", rid)]

def proveReqFull (cid inputs pt rid : Json) : Json :=
  Json.obj [("type", Json.str "prove"), ("circuitId", cid), ("inputs", inputs),
            ("proverToml", pt), ("requestId", rid)]

def proveReqInputs (cid inputs rid : Json) : Json :=
  Json.obj [("type", Json.str "prove"), ("circuitId", cid), ("inputs", inputs),
            ("requestId", rid)]

def attReq (proofHash : String) (rid : Json) : Json :=
  Json.obj [("type", Json.str "attestation"), ("requestId", rid),
            ("proofHash", Json.str proofHash)]

/-- The `"type"` field of a response. -/
def responseType (j : Json) : Option Json := jget j "type"

-- ─────────────────────────────────────────────────────────────
-- Helper lemmas
-- ─────────────────────────────────────────────────────────────

theorem recvLoop_eq_join (l : List (List Nat)) (h : ∀ c ∈ l, c ≠ []) :
    recvLoop l = l.flatten := by
  induction l with
  | nil => rfl
  | cons c rest ih =>
    have hc : c.isEmpty = false := by
      have := h c (List.mem_cons_self _ _)
      cases c with
      | nil => exact absurd rfl this
      | cons a t => rfl
    simp only [recvLoop, hc, Bool.false_eq_true, if_false, List.flatten_cons]
    rw [ih (fun x hx => h x (List.mem_cons_of_mem _ hx))]

-- ─────────────────────────────────────────────────────────────
-- Claim C9 — the bridge forwards bytes verbatim
-- ─────────────────────────────────────────────────────────────

/-- Claim C9: for every connection handled by the bridge, the exact byte
sequence read from the inbound TCP connection (all chunks up to
half-close or idle timeout) is forwarded unmodified and in full to the
outbound enclave connection, and the byte sequence read back from the
outbound connection is forwarded unmodified and in full to the inbound
connection, for arbitrary binary chunk sequences. -/
theorem bridge_forwards_verbatim (env : BridgeEnv)
    (hconn : env.connectOk = true)
    (hin : ∀ c ∈ env.inChunks, c ≠ [])
    (hout : ∀ c ∈ env.outChunks, c ≠ []) :
    bridge env = some (env.inChunks.flatten, env.outChunks.flatten) := by
  simp only [bridge, hconn, recvLoop_eq_join _ hin, recvLoop_eq_join _ hout]
  simp

/-- Witness for C9 at a concrete binary payload. -/
theorem bridge_forwards_verbatim_witness :
    bridge { connectOk := true, inChunks := [[0, 255, 10], [7]], outChunks := [[123, 34]] }
      = some ([0, 255, 10, 7], [123, 34]) :=
  bridge_forwards_verbatim _ rfl (by decide) (by decide)

-- ─────────────────────────────────────────────────────────────
-- Claim C6 — NSM control-structure layout
-- ─────────────────────────────────────────────────────────────

/-- Claim C6: the packed control structure is exactly 32 bytes, laid out
as a 64-bit request address, a 32-bit request length, 32 bits of
padding, a 64-bit response address, a 32-bit response length and 32 bits
of padding; byte offset 24 is the response-length field (decoding the
packed structure at offset 24 recovers the response length), and a zero
response length written back by the device makes `get_nsm_attestation`
return `none`. -/
theorem nsm_struct_layout (a l b n : Nat) (env : NsmEnv) (ud nonce : List Nat)
    (msgAfter respRaw : List Nat)
    (hdev : env.deviceAvailable = true) (hcbor : env.cbor2Available = true)
    (hio : env.ioctl (pack_QIIQII env.reqBufAddr
        (env.cborDumps (bytesOrNone ud) (bytesOrNone nonce)).length
        env.respBufAddr NSM_RESPONSE_BUF_SIZE) = some (msgAfter, respRaw))
    (hzero : unpack_from_I msgAfter 24 = 0) :
    (pack_QIIQII a l b n).length = 32
    ∧ pack_QIIQII a l b n = le64 a ++ le32 l ++ le32 0 ++ le64 b ++ le32 n ++ le32 0
    ∧ (pack_QIIQII a l b n).drop 24 = le32 n ++ le32 0
    ∧ unpack_from_I (pack_QIIQII a l b n) 24 = n % 4294967296
    ∧ get_nsm_attestation env ud nonce = none := by
  refine ⟨by simp [pack_QIIQII, le64, le32], rfl, rfl, ?_, ?_⟩
  · show le_u32 (List.drop 24 (pack_QIIQII a l b n)) = n % 4294967296
    have : List.drop 24 (pack_QIIQII a l b n) = le32 n ++ le32 0 := rfl
    rw [this]
    simp only [le32, le_u32, List.cons_append]
    omega
  · simp only [get_nsm_attestation, hdev, hcbor, hio, hzero]
    simp

/-- Witness for C6 on the zero-length-response environment. -/
theorem nsm_struct_layout_witness :
    (pack_QIIQII 1 2 3 5).length = 32
    ∧ pack_QIIQII 1 2 3 5 = le64 1 ++ le32 2 ++ le32 0 ++ le64 3 ++ le32 5 ++ le32 0
    ∧ (pack_QIIQII 1 2 3 5).drop 24 = le32 5 ++ le32 0
    ∧ unpack_from_I (pack_QIIQII 1 2 3 5) 24 = 5 % 4294967296
    ∧ get_nsm_attestation nsmZeroLen [1] [] = none :=
  nsm_struct_layout 1 2 3 5 nsmZeroLen [1] [] (List.replicate 32 0) [5, 6] rfl rfl rfl rfl

-- ─────────────────────────────────────────────────────────────
-- Claim C1 — empty / unparsable request bodies
-- ─────────────────────────────────────────────────────────────

/-- Claim C1 (counterexample): the claim asserts that an EMPTY
accumulated request body produces an `Error` response; in the code an
empty body is logged and the handler returns before writing anything,
so the connection is closed with no response at all. -/
theorem empty_body_no_response :
    handle_connection envOk parseFail [] = ConnResult.noResponse := rfl

/-- Claim C1 (amended): a connection whose accumulated body is NON-EMPTY
and fails JSON decoding gets an `Error` response with correlation id set
to the empty string; an empty accumulated body produces no response at
all — the connection is simply closed. -/
theorem invalid_json_error_empty_drop (env : PipelineEnv)
    (parse : List Nat → ParseOutcome) (chunks : List (List Nat)) (e : String)
    (hne : (recvLoop chunks).isEmpty = false)
    (hparse : parse (recvLoop chunks) = ParseOutcome.jsonError e) :
    handle_connection env parse chunks
      = ConnResult.sent (errorResp (Json.str "") ("Invalid JSON: " ++ e))
    ∧ ∀ chunks2 : List (List Nat), recvLoop chunks2 = [] →
        handle_connection env parse chunks2 = ConnResult.noResponse := by
  constructor
  · simp only [handle_connection, hne, hparse]
    simp
  · intro c2 h2
    simp [handle_connection, h2]

/-- Witness for the amended C1 at a concrete non-empty body. -/
theorem invalid_json_error_empty_drop_witness :
    handle_connection envOk parseFail [[2]]
      = ConnResult.sent (errorResp (Json.str "") ("Invalid JSON: " ++ "x")) :=
  (invalid_json_error_empty_drop envOk parseFail [[2]] "x" rfl rfl).1

-- ─────────────────────────────────────────────────────────────
-- Claim C10 — proofHash lstrip("0x") semantics
-- ─────────────────────────────────────────────────────────────

theorem lstrip0x_prefix00 (s : String) : lstrip0x ("0x00" ++ s) = lstrip0x s := by
  have h : ("0x00" ++ s).toList = '0' :: 'x' :: '0' :: '0' :: s.toList := rfl
  simp [lstrip0x, h, List.dropWhile]

theorem prefix00_ne_empty (s : String) : ("0x00" ++ s) ≠ "" := by
  intro h
  have h2 := congrArg String.length h
  rw [String.length_append] at h2
  have h3 : "0x00".length = 4 := rfl
  have h4 : "".length = 0 := rfl
  rw [h3, h4] at h2
  omega

/-- Claim C10: the caller data bound by a standalone attestation request
is the hex-decoding of the `proofHash` string after removing every
leading character of the SET 0,x (`str.lstrip("0x")`): prepending
"0x00" to a hash therefore binds the same bytes as the bare hash
(the leading zero byte is dropped), and when the remaining digit string
does not decode (odd length or a stray character) the request yields an
`Error` response. -/
theorem attestation_lstrip_hexdecode (env : NsmEnv) (rid : Json) (s : String)
    (hs : s ≠ "") :
    (∀ ud doc, doc ≠ [] → fromhex (lstrip0x s) = Except.ok ud →
       get_nsm_attestation env ud [] = some doc →
       handle_attestation env (attReq s rid)
         = Json.obj [("type", Json.str "attestation"), ("requestId", rid),
                     ("attestationDocument", Json.str (b64encode doc))])
    ∧ handle_attestation env (attReq ("0x00" ++ s) rid)
        = handle_attestation env (attReq s rid)
    ∧ (∀ e, fromhex (lstrip0x s) = Except.error e →
       handle_attestation env (attReq s rid) = errorResp rid e) := by
  refine ⟨?_, ?_, ?_⟩
  · intro ud doc hdoc h1 h2
    have hde : doc.isEmpty = false := by
      cases doc with
      | nil => exact absurd rfl hdoc
      | cons a t => rfl
    simp [handle_attestation, attReq, jgetD, jget, lookupField, pyTruthy, hs, h1, h2, hde]
  · simp [handle_attestation, attReq, jgetD, jget, lookupField, pyTruthy, hs,
      prefix00_ne_empty s, lstrip0x_prefix00 s]
  · intro e h1
    simp [handle_attestation, attReq, jgetD, jget, lookupField, pyTruthy, hs, h1]

/-- Witness for C10: "0xab" binds the byte 0xAB and yields the device's
document. -/
theorem attestation_lstrip_hexdecode_witness :
    handle_attestation nsmGiving (attReq "0xab" (Json.str "a1"))
      = Json.obj [("type", Json.str "attestation"), ("requestId", Json.str "a1"),
                  ("attestationDocument", Json.str (b64encode [7, 8]))] :=
  (attestation_lstrip_hexdecode nsmGiving (Json.str "a1") "0xab" (by decide)).1
    [171] [7, 8] (by decide) rfl rfl

-- ─────────────────────────────────────────────────────────────
-- Claim C8 — dispatch totality and unknown tags
-- ─────────────────────────────────────────────────────────────

theorem responseType_errorResp (rid : Json) (m : String) :
    responseType (errorResp rid m) = some (Json.str "error") := rfl

theorem responseType_errorRespFor (rid : Json) (e : PyErr) :
    responseType (errorRespFor rid e) = some (Json.str "error") := by
  cases e <;> rfl

theorem responseType_proofResp (rid : Json) (r : ProveResult) :
    responseType (proofResp rid r) = some (Json.str "proof") := by
  rcases r with ⟨p, pis, att⟩
  cases att <;> rfl

theorem responseType_handle_prove (env : PipelineEnv) (req : Json) :
    responseType (handle_prove env req).1 = some (Json.str "proof")
    ∨ responseType (handle_prove env req).1 = some (Json.str "error") := by
  simp only [handle_prove]
  split
  · right; exact responseType_errorResp _ _
  · split
    · right; exact responseType_errorResp _ _
    · split
      · left; exact responseType_proofResp _ _
      · right; exact responseType_errorRespFor _ _

theorem responseType_handle_attestation (env : NsmEnv) (req : Json) :
    responseType (handle_attestation env req) = some (Json.str "attestation")
    ∨ responseType (handle_attestation env req) = some (Json.str "error") := by
  simp only [handle_attestation]
  split
  · right; exact responseType_errorResp _ _
  · split
    · split
      · right; exact responseType_errorResp _ _
      · left; rfl
    · right; exact responseType_errorResp _ _

/-- Claim C8: for every request that decoded as a JSON object, dispatch
returns a response (the embedding is total: all failure paths of the
handlers are mapped to responses, so protocol errors never crash the
server) whose type tag is one of health, proof, attestation, error; a
type tag equal to none of health, prove, attestation yields an `Error`
response whose message names the offending tag. -/
theorem dispatch_total_unknown_tag (env : PipelineEnv) (request : Json)
    (_hobj : isObj request = true) :
    (responseType (dispatch env request).1 = some (Json.str "health")
     ∨ responseType (dispatch env request).1 = some (Json.str "proof")
     ∨ responseType (dispatch env request).1 = some (Json.str "attestation")
     ∨ responseType (dispatch env request).1 = some (Json.str "error"))
    ∧ (∀ t, jget request "type" = t →
        t ≠ some (Json.str "health") → t ≠ some (Json.str "prove") →
        t ≠ some (Json.str "attestation") →
        (dispatch env request).1
          = errorResp (jgetD request "requestId" (Json.str ""))
              ("Unknown request type: '" ++ pyStrOpt t ++ "'")) := by
  constructor
  · unfold dispatch
    rcases ht : jget request "type" with _ | j
    · right; right; right; exact responseType_errorResp _ _
    · cases j with
      | str s =>
        by_cases h1 : s = "health"
        · left; subst h1; simp only [if_pos rfl]; rfl
        · by_cases h2 : s = "prove"
          · subst h2; simp only [if_neg h1, if_pos rfl]
            rcases responseType_handle_prove env request with h | h
            · right; left; exact h
            · right; right; right; exact h
          · by_cases h3 : s = "attestation"
            · subst h3; simp only [if_neg h1, if_neg h2, if_pos rfl]
              rcases responseType_handle_attestation env.nsmEnv request with h | h
              · right; right; left; exact h
              · right; right; right; exact h
            · right; right; right
              simp only [if_neg h1, if_neg h2, if_neg h3]
              exact responseType_errorResp _ _
      | null => right; right; right; exact responseType_errorResp _ _
      | bool b => right; right; right; exact responseType_errorResp _ _
      | num n => right; right; right; exact responseType_errorResp _ _
      | arr l => right; right; right; exact responseType_errorResp _ _
      | obj f => right; right; right; exact responseType_errorResp _ _
  · intro t ht hh hp ha
    subst ht
    unfold dispatch
    rcases ht : jget request "type" with _ | j
    · rfl
    · rw [ht] at hh hp ha
      cases j with
      | str s =>
        have h1 : s ≠ "health" := by intro h; exact hh (by rw [h])
        have h2 : s ≠ "prove" := by intro h; exact hp (by rw [h])
        have h3 : s ≠ "attestation" := by intro h; exact ha (by rw [h])
        simp only [if_neg h1, if_neg h2, if_neg h3]
      | null => rfl
      | bool b => rfl
      | num n => rfl
      | arr l => rfl
      | obj f => rfl

/-- Witness for C8 at a concrete request with an unknown tag. -/
theorem dispatch_total_unknown_tag_witness :
    (dispatch envOk (Json.obj [("type", Json.str "frobnicate"), ("requestId", Json.str "q")])).1
      = errorResp (Json.str "q") ("Unknown request type: '" ++ "frobnicate" ++ "'") :=
  (dispatch_total_unknown_tag envOk
      (Json.obj [("type", Json.str "frobnicate"), ("requestId", Json.str "q")]) rfl).2
    (some (Json.str "frobnicate")) rfl
    (by simp) (by simp) (by simp)

-- ─────────────────────────────────────────────────────────────
-- Claim C3 — timeout error and unconditional workspace cleanup
-- ─────────────────────────────────────────────────────────────

theorem mkdtemp_notin_copyEvents (env : PipelineEnv) (paths : CircuitPaths) (w d : String) :
    Event.mkdtemp d ∉ copyEvents env paths w := by
  unfold copyEvents
  split <;> split <;> split <;> simp

set_option maxHeartbeats 2000000 in
theorem mkdtemp_notin_body (env : PipelineEnv) (paths : CircuitPaths) (cid : Json)
    (ins : List Json) (pt : Option Json) (d : String) :
    Event.mkdtemp d ∉ (proveInWorkdir env paths cid ins pt).2 := by
  have hc := mkdtemp_notin_copyEvents env paths env.workdir d
  unfold proveInWorkdir
  rcases pt with _ | j
  · repeat' split
    all_goals
      (by_cases hw1 : env.existsAfterNargo (env.workdir ++ "/target/" ++ pyStrJson cid ++ ".gz") = true <;>
       by_cases hw2 : env.existsAfterNargo (env.workdir ++ "/target/witness.gz") = true <;>
       (try simp_all [hc]) <;> (repeat' split) <;> simp_all [hc])
  · cases j <;> (repeat' split) <;>
      (by_cases hw1 : env.existsAfterNargo (env.workdir ++ "/target/" ++ pyStrJson cid ++ ".gz") = true <;>
       by_cases hw2 : env.existsAfterNargo (env.workdir ++ "/target/witness.gz") = true <;>
       (try simp_all [hc]) <;> (repeat' split) <;> simp_all [hc])

theorem generate_proof_cleanup (env : PipelineEnv) (cid : Json) (ins : List Json)
    (pt : Option Json) (d : String)
    (h : Event.mkdtemp d ∈ (generate_proof env cid ins pt).2) :
    Event.rmtree d ∈ (generate_proof env cid ins pt).2 := by
  unfold generate_proof at h ⊢
  rcases hg : get_circuit_paths cid with e | paths
  · rw [hg] at h
    simp at h
  · rw [hg] at h
    try dsimp only at h
    try dsimp only
    by_cases hb : env.exists0 paths.bytecode = false
    · rw [if_pos hb] at h; simp at h
    · rw [if_neg hb] at h ⊢
      by_cases hv : env.exists0 paths.vk = false
      · rw [if_pos hv] at h; simp at h
      · rw [if_neg hv] at h ⊢
        rcases List.mem_cons.mp h with he | hm
        · have hd : d = env.workdir := by injection he
          subst hd
          exact List.mem_cons_of_mem _ (List.mem_append_right _ (List.mem_singleton.mpr rfl))
        · rcases List.mem_append.mp hm with hm1 | hm2
          · exact absurd hm1 (mkdtemp_notin_body env paths cid ins pt d)
          · simp at hm2

theorem respOfPipeline_snd (rid : Json) (p : Except PyErr ProveResult × List Event) :
    (match p with
     | (Except.ok result, evs) => (proofResp rid result, evs)
     | (Except.error e, evs) => (errorRespFor rid e, evs)).2 = p.2 := by
  rcases p with ⟨res, evs⟩
  cases res <;> rfl

theorem handle_prove_cleanup (env : PipelineEnv) (req : Json) (d : String)
    (h : Event.mkdtemp d ∈ (handle_prove env req).2) :
    Event.rmtree d ∈ (handle_prove env req).2 := by
  simp only [handle_prove] at h ⊢
  by_cases h1 : pyTruthyOpt (jget req "circuitId") = false
  · rw [if_pos h1] at h; simp at h
  · rw [if_neg h1] at h ⊢
    by_cases h2 : pyTruthyOpt (jget req "proverToml") = false ∧
        (pyTruthyOpt (jget req "inputs") = false ∨ isArr (jget req "inputs") = false)
    · rw [if_pos h2] at h; simp at h
    · rw [if_neg h2] at h ⊢
      rw [respOfPipeline_snd] at h ⊢
      exact generate_proof_cleanup env _ _ _ d h

theorem handle_prove_proveReqPT (env : PipelineEnv) (cid pt : String) (rid : Json)
    (hcid : cid ≠ "") (hpt : pt ≠ "") :
    handle_prove env (proveReqPT (Json.str cid) pt rid)
      = (match generate_proof env (Json.str cid) [] (some (Json.str pt)) with
         | (Except.ok result, evs) => (proofResp rid result, evs)
         | (Except.error e, evs) => (errorRespFor rid e, evs)) := by
  simp [handle_prove, proveReqPT, jget, jgetD, lookupField, pyTruthyOpt, pyTruthy,
    hcid, hpt, asInputList]

/-- Claim C3: a `prove` request whose witness-generation or
proof-generation invocation exceeds the 120-second timeout gets an
`Error` response with the timeout-specific message; and on every exit
path of `generate_proof` — success, timeout, or any raised error after
workspace creation — the workspace directory is removed (its creation
event in a handler trace is always matched by its removal event). -/
theorem prove_timeout_and_cleanup (env : PipelineEnv) (cid pt : String) (rid : Json)
    (paths : CircuitPaths) :
    (∀ (env2 : PipelineEnv) (req : Json) (d : String),
       Event.mkdtemp d ∈ (handle_prove env2 req).2 →
       Event.rmtree d ∈ (handle_prove env2 req).2)
    ∧ (cid ≠ "" → pt ≠ "" →
       get_circuit_paths (Json.str cid) = Except.ok paths →
       env.exists0 paths.bytecode = true → env.exists0 paths.vk = true →
       env.nargo = Run.timedOut →
       (handle_prove env (proveReqPT (Json.str cid) pt rid)).1 = errorResp rid timeoutMsg)
    ∧ (∀ nout nerr, cid ≠ "" → pt ≠ "" →
       get_circuit_paths (Json.str cid) = Except.ok paths →
       env.exists0 paths.bytecode = true → env.exists0 paths.vk = true →
       env.nargo = Run.done 0 nout nerr →
       env.existsAfterNargo (env.workdir ++ "/target/" ++ cid ++ ".gz") = true →
       env.bb = Run.timedOut →
       (handle_prove env (proveReqPT (Json.str cid) pt rid)).1 = errorResp rid timeoutMsg) := by
  refine ⟨handle_prove_cleanup, ?_, ?_⟩
  · intro hcid hpt hok hb hv hn
    rw [handle_prove_proveReqPT env cid pt rid hcid hpt]
    simp [generate_proof, hok, hb, hv, proveInWorkdir, pyTruthyOpt, pyTruthy, hpt, hn,
      errorRespFor]
  · intro nout nerr hcid hpt hok hb hv hn hw hbb
    rw [handle_prove_proveReqPT env cid pt rid hcid hpt]
    simp [generate_proof, hok, hb, hv, proveInWorkdir, pyTruthyOpt, pyTruthy, hpt, hn,
      pyStrJson, hw, hbb, errorRespFor]

/-- Witness for C3: concrete nargo-timeout run. -/
theorem prove_timeout_and_cleanup_witness :
    (handle_prove envNargoTimeout
        (proveReqPT (Json.str "coinbase_attestation") "a = \"1\"\n" (Json.str "r9"))).1
      = errorResp (Json.str "r9") timeoutMsg :=
  (prove_timeout_and_cleanup envNargoTimeout "coinbase_attestation" "a = \"1\"\n" (Json.str "r9")
      { dir := "/app/circuits/coinbase-attestation",
        bytecode := "/app/circuits/coinbase-attestation/target/coinbase_attestation.json",
        vk := "/app/circuits/coinbase-attestation/target/vk/vk" }).2.1
    (by decide) (by decide) rfl rfl rfl rfl

-- ─────────────────────────────────────────────────────────────
-- Claim C4 — unknown circuit id; failure before workspace creation
-- ─────────────────────────────────────────────────────────────

/-- Claim C4: a `prove` request naming an unregistered circuit id gets an
`Error` response naming the unknown identifier and listing the
registered identifiers, with an empty effect trace; and any request
failing on a missing compiled-bytecode or verification-key artifact also
produces an empty effect trace — in both cases the failure happens
before any workspace directory is created. -/
theorem unknown_circuit_error_no_workspace (env : PipelineEnv) (cid pt : String) (rid : Json)
    (hcid : cid ≠ "") (hpt : pt ≠ "")
    (hunknown : lookupCircuit cid CIRCUITS = none) :
    handle_prove env (proveReqPT (Json.str cid) pt rid)
      = (errorResp rid ("Unknown circuitId '" ++ cid ++ "'. Supported: "
          ++ "coinbase_attestation, coinbase_country_attestation"), [])
    ∧ (∀ (cid2 pt2 : String) (rid2 : Json) (paths : CircuitPaths), cid2 ≠ "" → pt2 ≠ "" →
        get_circuit_paths (Json.str cid2) = Except.ok paths →
        (env.exists0 paths.bytecode = false ∨ env.exists0 paths.vk = false) →
        (handle_prove env (proveReqPT (Json.str cid2) pt2 rid2)).2 = []) := by
  constructor
  · rw [handle_prove_proveReqPT env cid pt rid hcid hpt]
    simp only [generate_proof, get_circuit_paths, hunknown]
    rfl
  · intro cid2 pt2 rid2 paths hcid2 hpt2 hok2 hart
    rw [handle_prove_proveReqPT env cid2 pt2 rid2 hcid2 hpt2]
    by_cases hbb : env.exists0 paths.bytecode = false
    · simp [generate_proof, hok2, hbb]
    · rcases hart with hart | hart
      · exact absurd hart hbb
      · simp [generate_proof, hok2, hbb, hart]

/-- Witness for C4 at the unknown id "nope" (and a missing-artifact
environment). -/
theorem unknown_circuit_error_no_workspace_witness :
    handle_prove envOk (proveReqPT (Json.str "nope") "t" (Json.str "r2"))
      = (errorResp (Json.str "r2") ("Unknown circuitId '" ++ "nope" ++ "'. Supported: "
          ++ "coinbase_attestation, coinbase_country_attestation"), []) :=
  (unknown_circuit_error_no_workspace envOk "nope" "t" (Json.str "r2")
      (by decide) (by decide) rfl).1

-- ─────────────────────────────────────────────────────────────
-- Claim C7 — witness file location policy
-- ─────────────────────────────────────────────────────────────

/-- Claim C7: after a successful witness-generation step the pipeline
passes target/(circuit-id).gz to the prover whenever that file exists
(regardless of whether target/witness.gz also exists — the first
convention wins), falls back to target/witness.gz only when the first is
absent, and fails with a descriptive error naming the expected path when
neither exists. -/
theorem witness_file_selection (env : PipelineEnv) (cid pt : String) (rid : Json)
    (paths : CircuitPaths) (nout nerr : String)
    (hcid : cid ≠ "") (hpt : pt ≠ "")
    (hok : get_circuit_paths (Json.str cid) = Except.ok paths)
    (hb : env.exists0 paths.bytecode = true) (hv : env.exists0 paths.vk = true)
    (hn : env.nargo = Run.done 0 nout nerr) :
    (env.existsAfterNargo (env.workdir ++ "/target/" ++ cid ++ ".gz") = true →
       Event.runBB paths.bytecode (env.workdir ++ "/target/" ++ cid ++ ".gz")
           (env.workdir ++ "/proof") paths.vk
         ∈ (handle_prove env (proveReqPT (Json.str cid) pt rid)).2)
    ∧ (env.existsAfterNargo (env.workdir ++ "/target/" ++ cid ++ ".gz") = false →
       env.existsAfterNargo (env.workdir ++ "/target/witness.gz") = true →
       Event.runBB paths.bytecode (env.workdir ++ "/target/witness.gz")
           (env.workdir ++ "/proof") paths.vk
         ∈ (handle_prove env (proveReqPT (Json.str cid) pt rid)).2)
    ∧ (env.existsAfterNargo (env.workdir ++ "/target/" ++ cid ++ ".gz") = false →
       env.existsAfterNargo (env.workdir ++ "/target/witness.gz") = false →
       (handle_prove env (proveReqPT (Json.str cid) pt rid)).1
         = errorResp rid ("Witness file not found after nargo execute. Expected: "
             ++ (env.workdir ++ "/target/" ++ cid ++ ".gz"))) := by
  refine ⟨?_, ?_, ?_⟩
  · intro hw
    rw [handle_prove_proveReqPT env cid pt rid hcid hpt, respOfPipeline_snd]
    simp only [generate_proof, hok]
    rw [if_neg (by simp [hb]), if_neg (by simp [hv])]
    simp only [proveInWorkdir, pyTruthyOpt, pyTruthy, hpt, pyStrJson, hn, hw]
    simp [hpt, hw]
    rcases env.bb with _ | ⟨brc, bo, be⟩ <;> (repeat' split) <;> simp
  · intro hw1 hw2
    rw [handle_prove_proveReqPT env cid pt rid hcid hpt, respOfPipeline_snd]
    simp only [generate_proof, hok]
    rw [if_neg (by simp [hb]), if_neg (by simp [hv])]
    simp only [proveInWorkdir, pyTruthyOpt, pyTruthy, hpt, pyStrJson, hn, hw1, hw2]
    simp [hpt, hw1, hw2]
    rcases env.bb with _ | ⟨brc, bo, be⟩ <;> (repeat' split) <;> simp
  · intro hw1 hw2
    rw [handle_prove_proveReqPT env cid pt rid hcid hpt]
    simp only [generate_proof, hok]
    rw [if_neg (by simp [hb]), if_neg (by simp [hv])]
    simp [proveInWorkdir, pyTruthyOpt, pyTruthy, hpt, pyStrJson, hn, hw1, hw2, errorRespFor]

/-- Witness for C7: both conventional names exist; the circuit-named file
is passed to bb. -/
theorem witness_file_selection_witness :
    Event.runBB "/app/circuits/coinbase-attestation/target/coinbase_attestation.json"
        ("/app/circuits/proof-r1-w" ++ "/target/" ++ "coinbase_attestation" ++ ".gz")
        ("/app/circuits/proof-r1-w" ++ "/proof")
        "/app/circuits/coinbase-attestation/target/vk/vk"
      ∈ (handle_prove envOk
          (proveReqPT (Json.str "coinbase_attestation") "a = \"1\"\n" (Json.str "r7"))).2 :=
  (witness_file_selection envOk "coinbase_attestation" "a = \"1\"\n" (Json.str "r7")
      { dir := "/app/circuits/coinbase-attestation",
        bytecode := "/app/circuits/coinbase-attestation/target/coinbase_attestation.json",
        vk := "/app/circuits/coinbase-attestation/target/vk/vk" }
      "" "" (by decide) (by decide) rfl rfl rfl rfl).1 rfl

-- ─────────────────────────────────────────────────────────────
-- Claim C2 — proverToml precedence over inputs
-- ─────────────────────────────────────────────────────────────

theorem proveInWorkdir_ignores_inputs (env : PipelineEnv) (paths : CircuitPaths)
    (cid : Json) (ins1 ins2 : List Json) (pt : Option Json)
    (h : pyTruthyOpt pt = true) :
    proveInWorkdir env paths cid ins1 pt = proveInWorkdir env paths cid ins2 pt := by
  simp [proveInWorkdir, h]

theorem generate_proof_ignores_inputs (env : PipelineEnv) (cid : Json)
    (ins1 ins2 : List Json) (pt : Option Json) (h : pyTruthyOpt pt = true) :
    generate_proof env cid ins1 pt = generate_proof env cid ins2 pt := by
  unfold generate_proof
  cases hg : get_circuit_paths cid with
  | error e => rfl
  | ok paths =>
    dsimp only
    rw [proveInWorkdir_ignores_inputs env paths cid ins1 ins2 pt h]

theorem handle_prove_proveReqFull (env : PipelineEnv) (cid2 : String) (ins : Json)
    (s : String) (rid : Json) (hcid : cid2 ≠ "") (hs : s ≠ "") :
    handle_prove env (proveReqFull (Json.str cid2) ins (Json.str s) rid)
      = (match generate_proof env (Json.str cid2) (asInputList (some ins))
             (some (Json.str s)) with
         | (Except.ok result, evs) => (proofResp rid result, evs)
         | (Except.error e, evs) => (errorRespFor rid e, evs)) := by
  simp [handle_prove, proveReqFull, jget, jgetD, lookupField, pyTruthyOpt, pyTruthy, hcid, hs]

theorem handle_prove_proveReqInputs (env : PipelineEnv) (cid2 : String) (l : List Json)
    (rid : Json) (hcid : cid2 ≠ "") (hl : l.isEmpty = false) :
    handle_prove env (proveReqInputs (Json.str cid2) (Json.arr l) rid)
      = (match generate_proof env (Json.str cid2) l none with
         | (Except.ok result, evs) => (proofResp rid result, evs)
         | (Except.error e, evs) => (errorRespFor rid e, evs)) := by
  simp [handle_prove, proveReqInputs, jget, jgetD, lookupField, pyTruthyOpt, pyTruthy, hcid,
    isArr, asInputList, hl]

/-- Claim C2 (counterexample): a request carrying a PRESENT but empty
`proverToml` (`""`) together with an inputs list has its Prover.toml
synthesized from the inputs — refuting "only when proverToml is absent
is the file synthesized". -/
theorem empty_prover_toml_still_synthesizes :
    jget (proveReqFull (Json.str "coinbase_attestation") (Json.arr [Json.str "1"])
        (Json.str "") (Json.str "r3")) "proverToml" = some (Json.str "")
    ∧ Event.writeFile "/app/circuits/proof-r1-w/Prover.toml" "input_0 = \"1\"\n"
        ∈ (handle_prove envOk (proveReqFull (Json.str "coinbase_attestation")
            (Json.arr [Json.str "1"]) (Json.str "") (Json.str "r3"))).2 := by
  exact ⟨rfl, by decide⟩

/-- Claim C2 (amended): when a prove request carries a non-empty (truthy)
`proverToml` string, that payload is written verbatim as the workspace's
Prover.toml and the inputs value has no effect on the handler's
behaviour at all; the file is synthesized in the
`input_(index) = "(value)"` format exactly when `proverToml` is absent
or falsy (e.g. the empty string). -/
theorem prover_toml_precedence (env : PipelineEnv) (cid rid i1 i2 : Json) (s : String)
    (hs : s ≠ "") :
    handle_prove env (proveReqFull cid i1 (Json.str s) rid)
      = handle_prove env (proveReqFull cid i2 (Json.str s) rid)
    ∧ (∀ (cid2 : String) (paths : CircuitPaths), cid2 ≠ "" →
        get_circuit_paths (Json.str cid2) = Except.ok paths →
        env.exists0 paths.bytecode = true → env.exists0 paths.vk = true →
        Event.writeFile (env.workdir ++ "/Prover.toml") s
          ∈ (handle_prove env (proveReqFull (Json.str cid2) i1 (Json.str s) rid)).2)
    ∧ (∀ (cid2 : String) (l : List Json) (paths : CircuitPaths), cid2 ≠ "" → l ≠ [] →
        get_circuit_paths (Json.str cid2) = Except.ok paths →
        env.exists0 paths.bytecode = true → env.exists0 paths.vk = true →
        Event.writeFile (env.workdir ++ "/Prover.toml") (inputsToml l)
          ∈ (handle_prove env (proveReqInputs (Json.str cid2) (Json.arr l) rid)).2) := by
  refine ⟨?_, ?_, ?_⟩
  · have hgen := generate_proof_ignores_inputs env cid (asInputList (some i1))
      (asInputList (some i2)) (some (Json.str s)) (by simp [pyTruthyOpt, pyTruthy, hs])
    simp [handle_prove, proveReqFull, jget, jgetD, lookupField, pyTruthyOpt, pyTruthy, hs,
      hgen]
  · intro cid2 paths hcid2 hok hb hv
    rw [handle_prove_proveReqFull env cid2 i1 s rid hcid2 hs, respOfPipeline_snd]
    simp only [generate_proof, hok]
    rw [if_neg (by simp [hb]), if_neg (by simp [hv])]
    simp [proveInWorkdir, pyTruthyOpt, pyTruthy, hs]
    rcases env.nargo with _ | ⟨rc, ro, re⟩ <;> (repeat' split) <;> simp
  · intro cid2 l paths hcid2 hl hok hb hv
    have hle : l.isEmpty = false := by
      cases l with
      | nil => exact absurd rfl hl
      | cons a t => rfl
    rw [handle_prove_proveReqInputs env cid2 l rid hcid2 hle, respOfPipeline_snd]
    simp only [generate_proof, hok]
    rw [if_neg (by simp [hb]), if_neg (by simp [hv])]
    simp [proveInWorkdir, pyTruthyOpt]
    rcases env.nargo with _ | ⟨rc, ro, re⟩ <;> (repeat' split) <;> simp

/-- Witness for the amended C2: two different inputs lists, same
response and trace; the verbatim payload is written. -/
theorem prover_toml_precedence_witness :
    handle_prove envOk (proveReqFull (Json.str "coinbase_attestation")
        (Json.arr [Json.str "1"]) (Json.str "p = \"2\"\n") (Json.str "rw"))
      = handle_prove envOk (proveReqFull (Json.str "coinbase_attestation")
        (Json.arr [Json.str "3", Json.str "4"]) (Json.str "p = \"2\"\n") (Json.str "rw")) :=
  (prover_toml_precedence envOk (Json.str "coinbase_attestation") (Json.str "rw")
      (Json.arr [Json.str "1"]) (Json.arr [Json.str "3", Json.str "4"])
      "p = \"2\"\n" (by decide)).1

-- ─────────────────────────────────────────────────────────────
-- Claim C5 — attestation failure is non-fatal for prove requests
-- ─────────────────────────────────────────────────────────────

theorem b64encode_ne_empty : ∀ (l : List Nat), l ≠ [] → b64encode l ≠ ""
  | [], h => absurd rfl h
  | [a], _ => fun heq => by
      have hd : (b64encode [a]).data
          = [b64c (a / 4 % 64), b64c (a % 4 * 16), '=', '='] := rfl
      rw [heq] at hd
      exact List.noConfusion hd
  | [a, b], _ => fun heq => by
      have hd : (b64encode [a, b]).data
          = [b64c (a / 4 % 64), b64c (a % 4 * 16 + b / 16 % 16), b64c (b % 16 * 4), '='] := rfl
      rw [heq] at hd
      exact List.noConfusion hd
  | a :: b :: c :: rest, _ => fun heq => by
      have hd : (b64encode (a :: b :: c :: rest)).data
          = b64c (a / 4 % 64) :: ([b64c (a % 4 * 16 + b / 16 % 16),
              b64c (b % 16 * 4 + c / 64 % 4), b64c (c % 64)] ++ (b64encode rest).data) := rfl
      rw [heq] at hd
      exact List.noConfusion hd

/-- Claim C5: on an otherwise successful prove pipeline run, failure to
obtain an attestation document — any environment in which the attestation
call yields `None`, and likewise one yielding an empty (hence falsy)
document — still produces a `Proof` response, merely lacking the
`attestationDocument` field; when a non-empty document is obtained the
same response carries it; and a standalone attestation request in an
environment yielding no (or only an empty, falsy) document is always
answered with an `Error` response. -/
theorem attestation_failure_nonfatal (env : PipelineEnv) (cid pt : String) (rid : Json)
    (paths : CircuitPaths) (nout nerr bout berr : String)
    (hcid : cid ≠ "") (hpt : pt ≠ "")
    (hok : get_circuit_paths (Json.str cid) = Except.ok paths)
    (hb : env.exists0 paths.bytecode = true) (hv : env.exists0 paths.vk = true)
    (hn : env.nargo = Run.done 0 nout nerr)
    (hw : env.existsAfterNargo (env.workdir ++ "/target/" ++ cid ++ ".gz") = true)
    (hbb : env.bb = Run.done 0 bout berr)
    (hdir : env.isDirAfterBB (env.workdir ++ "/proof") = true)
    (hpf : env.existsAfterBB (env.workdir ++ "/proof" ++ "/proof") = true) :
    ((∀ ud, get_nsm_attestation env.nsmEnv ud [] = none) →
       ∃ r : ProveResult, r.attestationDocument = none
         ∧ (handle_prove env (proveReqPT (Json.str cid) pt rid)).1 = proofResp rid r
         ∧ responseType (proofResp rid r) = some (Json.str "proof")
         ∧ jget (proofResp rid r) "attestationDocument" = none)
    ∧ ((∀ ud, get_nsm_attestation env.nsmEnv ud [] = some []) →
       ∃ r : ProveResult, r.attestationDocument = none
         ∧ (handle_prove env (proveReqPT (Json.str cid) pt rid)).1 = proofResp rid r
         ∧ responseType (proofResp rid r) = some (Json.str "proof")
         ∧ jget (proofResp rid r) "attestationDocument" = none)
    ∧ (∀ doc, doc ≠ [] → (∀ ud, get_nsm_attestation env.nsmEnv ud [] = some doc) →
       ∃ r : ProveResult, r.attestationDocument = some (b64encode doc)
         ∧ (handle_prove env (proveReqPT (Json.str cid) pt rid)).1 = proofResp rid r
         ∧ responseType (proofResp rid r) = some (Json.str "proof")
         ∧ jget (proofResp rid r) "attestationDocument"
             = some (Json.str (b64encode doc)))
    ∧ (∀ (envA : NsmEnv) (req : Json),
       (∀ ud, get_nsm_attestation envA ud [] = none
              ∨ get_nsm_attestation envA ud [] = some []) →
       responseType (handle_attestation envA req) = some (Json.str "error")) := by
  refine ⟨?_, ?_, ?_, ?_⟩
  · intro hnsm
    refine ⟨{ proof := "0x" ++ bytesHex (env.readFile (env.workdir ++ "/proof" ++ "/proof")),
              publicInputs :=
                if env.existsAfterBB (env.workdir ++ "/proof" ++ "/public_inputs") = true then
                  ["0x" ++ bytesHex (env.readFile (env.workdir ++ "/proof" ++ "/public_inputs"))]
                else [],
              attestationDocument := none }, rfl, ?_, ?_, ?_⟩
    · rw [handle_prove_proveReqPT env cid pt rid hcid hpt]
      simp only [generate_proof, hok]
      rw [if_neg (by simp [hb]), if_neg (by simp [hv])]
      simp [proveInWorkdir, pyTruthyOpt, pyTruthy, hpt, pyStrJson, hn, hw, hbb, hdir, hpf,
        hnsm]
    · exact responseType_proofResp _ _
    · rfl
  · intro hnsm
    refine ⟨{ proof := "0x" ++ bytesHex (env.readFile (env.workdir ++ "/proof" ++ "/proof")),
              publicInputs :=
                if env.existsAfterBB (env.workdir ++ "/proof" ++ "/public_inputs") = true then
                  ["0x" ++ bytesHex (env.readFile (env.workdir ++ "/proof" ++ "/public_inputs"))]
                else [],
              attestationDocument := none }, rfl, ?_, ?_, ?_⟩
    · rw [handle_prove_proveReqPT env cid pt rid hcid hpt]
      simp only [generate_proof, hok]
      rw [if_neg (by simp [hb]), if_neg (by simp [hv])]
      simp [proveInWorkdir, pyTruthyOpt, pyTruthy, hpt, pyStrJson, hn, hw, hbb, hdir, hpf,
        hnsm]
    · exact responseType_proofResp _ _
    · rfl
  · intro doc hdoc hnsm
    have hde : doc.isEmpty = false := by
      cases doc with
      | nil => exact absurd rfl hdoc
      | cons a t => rfl
    have hbne : b64encode doc ≠ "" := b64encode_ne_empty doc hdoc
    refine ⟨{ proof := "0x" ++ bytesHex (env.readFile (env.workdir ++ "/proof" ++ "/proof")),
              publicInputs :=
                if env.existsAfterBB (env.workdir ++ "/proof" ++ "/public_inputs") = true then
                  ["0x" ++ bytesHex (env.readFile (env.workdir ++ "/proof" ++ "/public_inputs"))]
                else [],
              attestationDocument := some (b64encode doc) }, rfl, ?_, ?_, ?_⟩
    · rw [handle_prove_proveReqPT env cid pt rid hcid hpt]
      simp only [generate_proof, hok]
      rw [if_neg (by simp [hb]), if_neg (by simp [hv])]
      simp [proveInWorkdir, pyTruthyOpt, pyTruthy, hpt, pyStrJson, hn, hw, hbb, hdir, hpf,
        hnsm, hde, hbne]
    · exact responseType_proofResp _ _
    · rfl
  · intro envA req hnsm
    simp only [handle_attestation]
    split
    · exact responseType_errorResp _ _
    · next ud heq =>
      rcases hnsm ud with h | h <;> rw [h]
      · exact responseType_errorResp _ _
      · exact responseType_errorResp _ _

/-- Witness for C5: full pipeline success with the NSM device absent —
a proof response with no attestationDocument field. -/
theorem attestation_failure_nonfatal_witness :
    ∃ r : ProveResult, r.attestationDocument = none
      ∧ (handle_prove envOk
          (proveReqPT (Json.str "coinbase_attestation") "a = \"1\"\n" (Json.str "r5"))).1
          = proofResp (Json.str "r5") r
      ∧ responseType (proofResp (Json.str "r5") r) = some (Json.str "proof")
      ∧ jget (proofResp (Json.str "r5") r) "attestationDocument" = none :=
  (attestation_failure_nonfatal envOk "coinbase_attestation" "a = \"1\"\n" (Json.str "r5")
      { dir := "/app/circuits/coinbase-attestation",
        bytecode := "/app/circuits/coinbase-attestation/target/coinbase_attestation.json",
        vk := "/app/circuits/coinbase-attestation/target/vk/vk" }
      "" "" "" "" (by decide) (by decide) rfl rfl rfl rfl rfl rfl rfl rfl).1
    (fun ud => rfl)
